import Mathlib

/-!
# Verification of the Telegram donation bot (`src/api/index.py`)

Shallow embedding of the bot's ledger store, conversation state machine,
payment handlers, admin reporting and webhook gateway, together with
theorems settling the specification claims.

Modelling conventions:
* SQLite rows become Lean structures; the two tables created by `init_db`
  (`users`, `donations`) become lists inside a `Ledger` record.  The
  `AUTOINCREMENT` primary key of `donations` is modelled by the `nextId`
  counter: each insert is assigned `nextId` and bumps it, which is exactly
  SQLite's strictly-increasing id assignment.
* `users.user_id` is a `PRIMARY KEY`, so lookups use `List.find?` (at most
  one matching row ever exists when rows are only created by `log_user`).
* Python `int(...)` on a stripped string is modelled by `parsePyInt`
  (optional sign followed by decimal digits); Python's `//` on the
  non-negative `total_amount` is `Nat` division.
* The Flask handler `webhook` is modelled as a function of the decoded
  request body (`none` when `request.get_json(force=True)` cannot parse the
  body, mirroring the `BadRequest` client error it raises) and of the
  dispatch pipeline (`Update.de_json` + `application.process_update`),
  which may fail.  The handler contains no `try/except`, so a dispatch
  failure is modelled as an exception escaping the handler
  (`HttpOutcome.raised`), distinct from a response built by the handler.
-/

namespace DonationBot

/-- A row of the `users` table created by `init_db`. -/
structure UserRow where
  user_id : Int
  username : String
  first_name : String
  last_name : String
  first_seen : String
  deriving Repr, DecidableEq

/-- A row of the `donations` table created by `init_db`. -/
structure DonationRow where
  id : Nat
  user_id : Int
  amount : Int
  payload : String
  timestamp : String
  deriving Repr, DecidableEq

/-- The persistent state: both tables plus the `AUTOINCREMENT` counter for
`donations.id`. -/
structure Ledger where
  users : List UserRow
  donations : List DonationRow
  nextId : Nat
  deriving Repr, DecidableEq

/-- The freshly initialised database (`init_db` on a new file). -/
def emptyLedger : Ledger := { users := [], donations := [], nextId := 1 }

/-- A Telegram user object as the handlers see it (`update.effective_user`);
display fields are optional, mirroring `user.username or ''` etc. -/
structure TgUser where
  id : Int
  username : Option String
  first_name : Option String
  last_name : Option String
  deriving Repr, DecidableEq

/-- Python `x or ''` on an optional string. -/
def orEmpty : Option String → String
  | some s => s
  | none => ""

/-- SQL row lookup by primary key `user_id`. -/
def lookupUser (users : List UserRow) (uid : Int) : Option UserRow :=
  users.find? (fun r => r.user_id == uid)

/-- `log_user`: `INSERT OR IGNORE INTO users ...` — inserts a fresh row
unless a row with the same primary key already exists, in which case the
statement is a no-op. -/
def log_user (L : Ledger) (u : TgUser) (now : String) : Ledger :=
  if L.users.any (fun r => r.user_id == u.id) then L
  else { L with users := L.users ++
          [{ user_id := u.id
             username := orEmpty u.username
             first_name := orEmpty u.first_name
             last_name := orEmpty u.last_name
             first_seen := now }] }

/-- `log_donation`: `INSERT INTO donations ...`; SQLite assigns the
`AUTOINCREMENT` id.  Returns the updated ledger and the assigned id. -/
def log_donation (L : Ledger) (user_id : Int) (amount : Int)
    (payload : String) (now : String) : Ledger × Nat :=
  ({ L with
      donations := L.donations ++
        [{ id := L.nextId, user_id := user_id, amount := amount
           payload := payload, timestamp := now }]
      nextId := L.nextId + 1 },
   L.nextId)

/-- SQL `SUM(amount)`: `NULL` on an empty table, otherwise the sum. -/
def sqlSumAmount (ds : List DonationRow) : Option Int :=
  if ds.isEmpty then none else some (ds.map (fun d => d.amount)).sum

/-- `get_stats`: `COUNT(*)` and `COALESCE(SUM(amount),0)` over `donations`,
`COUNT(*)` over `users`; returns `(total_users, total_stars,
total_donations)`. -/
def get_stats (L : Ledger) : Nat × Int × Nat :=
  let total_donations := L.donations.length
  let total_stars := (sqlSumAmount L.donations).getD 0
  let total_users := L.users.length
  (total_users, total_stars, total_donations)

/-- A result row of the `get_last_donations` query: all columns of
`donations` plus the left-joined `username` / `first_name` (SQL `NULL`,
i.e. `none`, when no `users` row matches). -/
structure DonationView where
  id : Nat
  user_id : Int
  amount : Int
  payload : String
  timestamp : String
  username : Option String
  first_name : Option String
  deriving Repr, DecidableEq

/-- `ORDER BY d.id DESC`. -/
def sortByIdDesc (ds : List DonationRow) : List DonationRow :=
  ds.mergeSort (fun a b => decide (b.id ≤ a.id))

/-- `LEFT JOIN users u ON d.user_id = u.user_id` for one donation row
(sound because `user_id` is the `users` primary key). -/
def joinDonorNames (users : List UserRow) (d : DonationRow) : DonationView :=
  match lookupUser users d.user_id with
  | some u =>
      { id := d.id, user_id := d.user_id, amount := d.amount
        payload := d.payload, timestamp := d.timestamp
        username := some u.username, first_name := some u.first_name }
  | none =>
      { id := d.id, user_id := d.user_id, amount := d.amount
        payload := d.payload, timestamp := d.timestamp
        username := none, first_name := none }

/-- `get_last_donations`: left-join each donation with its donor, order by
id descending, keep at most `limit` rows. -/
def get_last_donations (L : Ledger) (limit : Nat) : List DonationView :=
  ((sortByIdDesc L.donations).take limit).map (joinDonorNames L.users)

/-! ## Python integer parsing and the conversation state machine -/

/-- Parse a non-empty all-digit character list as a decimal `Nat`
(`none` when empty or a non-digit occurs), as Python `int` does after the
optional sign. -/
def parseDigits (cs : List Char) : Option Nat :=
  if cs.isEmpty then none
  else
    cs.foldl
      (fun acc c =>
        match acc with
        | none => none
        | some n => if c.isDigit then some (n * 10 + (c.toNat - 48)) else none)
      (some 0)

/-- Python `str.strip()`: drop whitespace from both ends. -/
def pyStrip (s : String) : String :=
  ⟨((s.data.dropWhile Char.isWhitespace).reverse.dropWhile
      Char.isWhitespace).reverse⟩

/-- Python `int(s)` on an already-stripped string: an optional sign followed
by at least one decimal digit, otherwise `ValueError` (`none`). -/
def parsePyInt (s : String) : Option Int :=
  match s.data with
  | '-' :: rest => (parseDigits rest).map (fun n => -(n : Int))
  | '+' :: rest => (parseDigits rest).map (fun n => (n : Int))
  | cs => (parseDigits cs).map (fun n => (n : Int))

/-- Per-user conversation state: `context.user_data['waiting_for_amount']`
(absent means `False`, i.e. `IDLE`; `true` means `AWAITING_AMOUNT`). -/
structure ConvState where
  waiting_for_amount : Bool
  deriving Repr, DecidableEq

/-- The invoice produced by `send_invoice`: prices carry `amount * 100`
minor units of the `XTR` currency. -/
structure InvoiceRequest where
  chat_id : Int
  title : String
  description : String
  payload : String
  price : Int
  currency : String
  deriving Repr, DecidableEq

/-- `send_invoice(context, chat_id, amount, user_id)`. -/
def send_invoice (chat_id : Int) (amount : Int) (user_id : Int) : InvoiceRequest :=
  { chat_id := chat_id
    title := "Donate " ++ toString amount ++ " Stars"
    description := "Thank you for supporting with Stars! This helps keep things going. ❤️"
    payload := "donation_" ++ toString amount ++ "_" ++ toString user_id
    price := amount * 100
    currency := "XTR" }

/-- Observable effect of one text-message or button event. -/
inductive BotAction where
  /-- Handler finished without an outbound message. -/
  | silent : BotAction
  /-- `reply_text` with the given text. -/
  | reply : String → BotAction
  /-- `send_invoice` was called with this invoice. -/
  | invoice : InvoiceRequest → BotAction
  /-- `edit_message_text` prompting for the custom amount. -/
  | prompt : String → BotAction
  /-- An uncaught Python exception escaped the handler. -/
  | raisedError : String → BotAction
  deriving Repr, DecidableEq

/-- `handle_message`: the text handler.  When `waiting_for_amount` is set it
parses the stripped text as an integer; `< 1` and `ValueError` each send a
validation reply *without touching the flag*; a valid amount sends an
invoice and only then clears the flag.  When the flag is clear the handler
does nothing. -/
def handle_message (st : ConvState) (chat_id : Int) (user_id : Int)
    (text : String) : ConvState × BotAction :=
  if st.waiting_for_amount then
    match parsePyInt (pyStrip text) with
    | some amount =>
        if amount < 1 then
          (st, .reply "Amount must be at least 1 Star. Try again:")
        else
          ({ waiting_for_amount := false },
           .invoice (send_invoice chat_id amount user_id))
    | none => (st, .reply "Please enter a valid number (e.g., 25). Try again:")
  else (st, .silent)

/-- `button`: the callback-query handler.  `donate_N` sends an invoice for
`N`; `custom` sets `waiting_for_amount` and edits the message into a
prompt; `int(data.split('_')[1])` failing raises `ValueError`. -/
def button (st : ConvState) (chat_id : Int) (from_id : Int)
    (data : String) : ConvState × BotAction :=
  if data.startsWith ("donate_") then
    match parsePyInt ((data.splitOn ("_")).getD 1 ("")) with
    | some amount => (st, .invoice (send_invoice chat_id amount from_id))
    | none => (st, .raisedError "ValueError")
  else if data == "custom" then
    ({ waiting_for_amount := true },
     .prompt "Please reply with the custom amount (e.g., 50 for 50 Stars):")
  else (st, .silent)

/-- `successful_payment`: records `payment.total_amount // 100` Stars with
the confirmed payload, then thanks the donor.  No cross-check against
prior invoices or the `users` table is performed. -/
def successful_payment (L : Ledger) (user_id : Int) (total_amount : Nat)
    (invoice_payload : String) (now : String) : Ledger × String :=
  let amount : Nat := total_amount / 100
  let L' := (log_donation L user_id (amount : Int) invoice_payload now).1
  (L',
   "Thank you for your **" ++ toString amount ++
     " Stars** donation! Your support means the world!\n" ++
     "Want to donate again? Just /start")

/-! ## Admin reporting -/

/-- Python truthiness of an optional string (`None` and `''` are falsy). -/
def truthyStr : Option String → Bool
  | some s => s != ""
  | none => false

/-- One line of the `/donations` report:
`` `{amount}` Stars – {name} – {timestamp[:19].replace('T',' ')} ``. -/
def formatDonationLine (r : DonationView) : String :=
  let name :=
    orEmpty r.first_name ++
      (if truthyStr r.username then " @" ++ orEmpty r.username else "")
  "`" ++ toString r.amount ++ "` Stars – " ++ name ++ " – " ++
    ((r.timestamp.take 19).replace ("T") (" "))

/-- `/stats` handler: non-admin callers get the fixed denial and no query
runs.  The second component records whether the ledger was read. -/
def stats (adminId : Int) (fromId : Int) (L : Ledger) : String × Bool :=
  if fromId != adminId then ("Admin only.", false)
  else
    let s := get_stats L
    ("*Bot Statistics*\n• Users: `" ++ toString s.1 ++
       "`\n• Total Stars: `" ++ toString s.2.1 ++
       "`\n• Donations: `" ++ toString s.2.2 ++ "`",
     true)

/-- `/donations` handler: non-admin callers get the fixed denial and no
query runs.  The second component records whether the ledger was read. -/
def donations (adminId : Int) (fromId : Int) (L : Ledger) : String × Bool :=
  if fromId != adminId then ("Admin only.", false)
  else
    let rows := get_last_donations L 10
    if rows.isEmpty then ("No donations yet.", true)
    else
      ("*Last 10 Donations*\n" ++
         String.intercalate ("\n") (rows.map formatDonationLine),
       true)

/-! ## Webhook gateway -/

/-- Decoded JSON value of the request body. -/
inductive Json where
  | null : Json
  | bool : Bool → Json
  | num : Int → Json
  | str : String → Json
  | arr : List Json → Json
  | obj : List (String × Json) → Json

/-- Python truthiness of a decoded JSON value (`if not json_data`). -/
def Json.truthy : Json → Bool
  | .null => false
  | .bool b => b
  | .num n => n != 0
  | .str s => s != ""
  | .arr xs => !xs.isEmpty
  | .obj kvs => !kvs.isEmpty

/-- What an HTTP call to the gateway observes of the handler: either a
response the handler produced (status code and body — `abort` raises the
framework's `HTTPException`, whose meaning *is* that response), or an
uncaught exception escaping the handler function. -/
inductive HttpOutcome where
  | response : Nat → String → HttpOutcome
  | raised : String → HttpOutcome
  deriving Repr, DecidableEq

/-- Whether the handler itself produced an HTTP response (as opposed to
letting an exception escape). -/
def HttpOutcome.isResponse : HttpOutcome → Bool
  | .response _ _ => true
  | .raised _ => false

/-- The `webhook` Flask handler.  `body` is the result of
`request.get_json(force=True)`: `none` when the body cannot be parsed as
JSON (a `BadRequest` client error); a falsy decoded value hits
`abort(400)`.  `dispatch` is the downstream pipeline (`Update.de_json`,
`application.initialize`, `application.process_update`), which may raise.
The handler wraps the dispatch in no `try/except`, so a dispatch error
escapes the handler.  The second component records whether the dispatch
pipeline was invoked at all. -/
def webhook (body : Option Json) (dispatch : Json → Except String Unit) :
    HttpOutcome × Bool :=
  match body with
  | none => (.response 400 ("Bad Request"), false)
  | some j =>
      if !j.truthy then (.response 400 ("Bad Request"), false)
      else
        match dispatch j with
        | .ok _ => (.response 200 ("OK"), true)
        | .error e => (.raised e, true)

/-! ## Sequences of store calls -/

/-- A sequence of `log_user` calls, in call order (each pair is the Telegram
user object and the `datetime.utcnow()` timestamp of that call). -/
def runUserLogs (L : Ledger) (calls : List (TgUser × String)) : Ledger :=
  calls.foldl (fun acc p => log_user acc p.1 p.2) L

/-- One `log_donation` call's arguments:
`(user_id, amount, payload, timestamp)`. -/
structure DonationCall where
  user_id : Int
  amount : Int
  payload : String
  timestamp : String
  deriving Repr, DecidableEq

/-- A sequence of `log_donation` calls in call order, returning the final
ledger together with the store-assigned ids in call order. -/
def runDonations : Ledger → List DonationCall → Ledger × List Nat
  | L, [] => (L, [])
  | L, c :: cs =>
      let r := log_donation L c.user_id c.amount c.payload c.timestamp
      let rest := runDonations r.1 cs
      (rest.1, r.2 :: rest.2)

/-! ## Helper lemmas -/

theorem log_user_skip (L : Ledger) (u : TgUser) (t : String)
    (h : L.users.any (fun r => r.user_id == u.id) = true) :
    log_user L u t = L := by
  simp [log_user, h]

theorem log_user_insert (L : Ledger) (u : TgUser) (t : String)
    (h : L.users.any (fun r => r.user_id == u.id) = false) :
    (log_user L u t).users = L.users ++
      [{ user_id := u.id, username := orEmpty u.username
         first_name := orEmpty u.first_name, last_name := orEmpty u.last_name
         first_seen := t }] := by
  simp [log_user, h]

theorem log_user_any_after (L : Ledger) (u : TgUser) (t : String) :
    (log_user L u t).users.any (fun r => r.user_id == u.id) = true := by
  unfold log_user
  cases h : L.users.any (fun r => r.user_id == u.id) with
  | true => simpa using h
  | false => simp

theorem runUserLogs_fixed (X : Ledger) (uid : Int)
    (calls : List (TgUser × String))
    (hX : X.users.any (fun r => r.user_id == uid) = true)
    (hc : ∀ p ∈ calls, (p.1).id = uid) :
    runUserLogs X calls = X := by
  induction calls with
  | nil => rfl
  | cons p ps ih =>
      have hid : (p.1).id = uid := hc p (List.mem_cons_self p ps)
      have : log_user X p.1 p.2 = X := by
        apply log_user_skip
        rw [hid]
        exact hX
      simpa [runUserLogs, this] using ih (fun q hq => hc q (List.mem_cons_of_mem p hq))

theorem sqlSumAmount_getD (ds : List DonationRow) :
    (sqlSumAmount ds).getD 0 = (ds.map (fun d => d.amount)).sum := by
  cases ds <;> simp [sqlSumAmount]

theorem joinDonorNames_id (us : List UserRow) (d : DonationRow) :
    (joinDonorNames us d).id = d.id := by
  cases h : lookupUser us d.user_id <;> simp [joinDonorNames, h]

theorem joinDonorNames_user_id (us : List UserRow) (d : DonationRow) :
    (joinDonorNames us d).user_id = d.user_id := by
  cases h : lookupUser us d.user_id <;> simp [joinDonorNames, h]

theorem runDonations_ids (L : Ledger) (cs : List DonationCall) :
    (runDonations L cs).2 = List.range' L.nextId cs.length := by
  induction cs generalizing L with
  | nil => rfl
  | cons c cs ih =>
      simp [runDonations, log_donation, ih, List.range'_succ]

/-! ## Claim theorems -/

/-- Claim C3: for every sequence of `log_user` calls sharing the same
`user_id` (no row for it existing beforehand) but carrying arbitrary
display names, exactly one `users` row exists for that `user_id` afterwards,
its fields equal the values of the first call, and every later call is a
no-op (the ledger after the whole sequence is the ledger after the first
call; `INSERT OR IGNORE` raises no error). -/
theorem log_user_first_write_wins (L : Ledger) (u : TgUser) (t : String)
    (rest : List (TgUser × String))
    (h0 : lookupUser L.users u.id = none)
    (hrest : ∀ p ∈ rest, (p.1).id = u.id) :
    ((runUserLogs L ((u, t) :: rest)).users.filter
        (fun r => r.user_id == u.id)).length = 1 ∧
    lookupUser (runUserLogs L ((u, t) :: rest)).users u.id = some
      { user_id := u.id, username := orEmpty u.username
        first_name := orEmpty u.first_name, last_name := orEmpty u.last_name
        first_seen := t } ∧
    runUserLogs L ((u, t) :: rest) = log_user L u t := by
  have hnone : ∀ r ∈ L.users, ¬ (r.user_id == u.id) = true :=
    List.find?_eq_none.mp h0
  have hany : L.users.any (fun r => r.user_id == u.id) = false := by
    rw [List.any_eq_false]
    exact hnone
  have hfix : runUserLogs L ((u, t) :: rest) = log_user L u t := by
    have := runUserLogs_fixed (log_user L u t) u.id rest
      (log_user_any_after L u t) hrest
    simpa [runUserLogs] using this
  refine ⟨?_, ?_, hfix⟩
  · rw [hfix, log_user_insert L u t hany]
    rw [List.filter_append]
    have : L.users.filter (fun r => r.user_id == u.id) = [] := by
      rw [List.filter_eq_nil_iff]
      exact hnone
    simp [this]
  · rw [hfix]
    unfold lookupUser
    rw [log_user_insert L u t hany, List.find?_append]
    unfold lookupUser at h0
    simp [h0]

/-- Claim C4: `log_donation` is monotonic — over any sequence of calls
starting from any ledger state, the store-assigned donation ids strictly
increase in call order (so, for every pair of calls, the id of the later
call is strictly greater than the id of the earlier call). -/
theorem log_donation_monotonic_ids (L : Ledger) (cs : List DonationCall) :
    ((runDonations L cs).2).Pairwise (· < ·) := by
  rw [runDonations_ids]
  exact List.pairwise_lt_range' L.nextId cs.length 1 (by omega)

/-- Claim C6: `get_stats` returns `(user_count, total_amount,
donation_count)` where `total_amount` is the sum of all donation amounts
and is the integer `0` (never SQL `NULL`, thanks to `COALESCE`) when no
donations exist; on an empty ledger it returns `(0, 0, 0)`. -/
theorem get_stats_totals (L : Ledger) (us : List UserRow) (n : Nat) :
    get_stats L =
      (L.users.length, (L.donations.map (fun d => d.amount)).sum,
        L.donations.length) ∧
    get_stats { users := us, donations := [], nextId := n } =
      (us.length, 0, 0) ∧
    get_stats emptyLedger = (0, 0, 0) := by
  refine ⟨?_, ?_, rfl⟩
  · simp [get_stats, sqlSumAmount_getD]
  · simp [get_stats, sqlSumAmount]

/-- Claim C8: every confirmed-payment event appends exactly one donation
row carrying the confirmed payment's amount (`total_amount // 100`) and its
`invoice_payload`, for *every* ledger state, payer and payload — in
particular also when the payload was never issued by any invoice and when
no `users` row exists for the payer (the `users` table is not consulted and
is left unchanged: no referential or payload cross-check). -/
theorem successful_payment_appends (L : Ledger) (uid : Int) (total : Nat)
    (payload now : String) :
    (successful_payment L uid total payload now).1.donations =
      L.donations ++
        [{ id := L.nextId, user_id := uid
           amount := ((total / 100 : Nat) : Int)
           payload := payload, timestamp := now }] ∧
    (successful_payment L uid total payload now).1.users = L.users ∧
    (successful_payment L uid total payload now).1.nextId = L.nextId + 1 := by
  refine ⟨rfl, rfl, rfl⟩

/-- Claim C10: the recorded amount is the platform-reported `total_amount`
floor-divided by 100; an invoice for `N` Stars is priced at `N * 100` minor
units, and a payment confirming `M * 100` minor units records exactly `M`;
the remainder `total % 100` is silently discarded (the recorded amount
satisfies `recorded * 100 + total % 100 = total`). -/
theorem payment_amount_floor_div (L : Ledger) (uid : Int) (total M : Nat)
    (payload now : String) (chat_id N user_id : Int) :
    ((successful_payment L uid total payload now).1.donations.getLast?).map
        (fun d => d.amount) = some ((total / 100 : Nat) : Int) ∧
    (send_invoice chat_id N user_id).price = N * 100 ∧
    ((successful_payment L uid (M * 100) payload now).1.donations.getLast?).map
        (fun d => d.amount) = some ((M : Nat) : Int) ∧
    (total / 100) * 100 + total % 100 = total := by
  refine ⟨?_, rfl, ?_, by omega⟩
  · simp [successful_payment, log_donation, List.getLast?_concat]
  · simp [successful_payment, log_donation, List.getLast?_concat,
      Nat.mul_div_cancel M (by norm_num : (0:Nat) < 100)]

/-- Witness for C3 at a concrete two-call sequence: user 7 first registers
as "alice"/"A", a later call carries "bob"/"B"; only the first call's
values persist. -/
theorem log_user_first_write_wins_witness :
    ((runUserLogs emptyLedger
        [(⟨7, some ("alice"), some ("A"), none⟩, "t1"),
         (⟨7, some ("bob"), none, some ("B")⟩, "t2")]).users.filter
        (fun r => r.user_id == (7 : Int))).length = 1 ∧
    lookupUser (runUserLogs emptyLedger
        [(⟨7, some ("alice"), some ("A"), none⟩, "t1"),
         (⟨7, some ("bob"), none, some ("B")⟩, "t2")]).users 7 = some
      { user_id := 7, username := "alice", first_name := "A", last_name := ""
        first_seen := "t1" } ∧
    runUserLogs emptyLedger
        [(⟨7, some ("alice"), some ("A"), none⟩, "t1"),
         (⟨7, some ("bob"), none, some ("B")⟩, "t2")]
      = log_user emptyLedger ⟨7, some ("alice"), some ("A"), none⟩ "t1" :=
  log_user_first_write_wins emptyLedger ⟨7, some ("alice"), some ("A"), none⟩
    "t1" [(⟨7, some ("bob"), none, some ("B")⟩, "t2")] rfl
    (by intro p hp; rcases List.mem_singleton.mp hp with rfl; rfl)

theorem sortByIdDesc_sorted (ds : List DonationRow) :
    (sortByIdDesc ds).Pairwise (fun a b => b.id ≤ a.id) := by
  have h : (ds.mergeSort (fun a b => decide (b.id ≤ a.id))).Pairwise
      (fun a b => decide (b.id ≤ a.id) = true) := by
    apply List.sorted_mergeSort
    · intro a b c h1 h2
      simp at h1 h2 ⊢
      omega
    · intro a b
      simp
      omega
  refine h.imp ?_
  intro a b hab
  simpa using hab

/-- Claim C5: for every ledger state and every limit, `get_last_donations`
returns at most `limit` rows, ordered descending by id (most recent
first); each result row is the left-join of some donation row with the
donor's `username`/`first_name` when a matching `users` row exists; a
donation whose user row is missing still appears (which donations appear
is independent of the `users` table), with `NULL` (`none`) name fields. -/
theorem get_last_donations_spec (L : Ledger) (limit : Nat)
    (users' : List UserRow) :
    (get_last_donations L limit).length ≤ limit ∧
    ((get_last_donations L limit).map (fun v => v.id)).Pairwise
      (fun a b => b ≤ a) ∧
    (∀ v ∈ get_last_donations L limit,
      ∃ d ∈ L.donations, v = joinDonorNames L.users d) ∧
    ((get_last_donations { L with users := users' } limit).map (fun v => v.id)
      = (get_last_donations L limit).map (fun v => v.id)) ∧
    (∀ v ∈ get_last_donations L limit,
      (lookupUser L.users v.user_id = none →
        v.username = none ∧ v.first_name = none) ∧
      (∀ u, lookupUser L.users v.user_id = some u →
        v.username = some u.username ∧ v.first_name = some u.first_name)) := by
  have hproj : ∀ us : List UserRow,
      (((sortByIdDesc L.donations).take limit).map
          (joinDonorNames us)).map (fun v => v.id)
        = ((sortByIdDesc L.donations).take limit).map (fun d => d.id) := by
    intro us
    rw [List.map_map]
    apply List.map_congr_left
    intro d _
    exact joinDonorNames_id us d
  refine ⟨?_, ?_, ?_, ?_, ?_⟩
  · rw [get_last_donations, List.length_map]
    exact List.length_take_le limit _
  · rw [get_last_donations, hproj L.users]
    rw [List.pairwise_map]
    exact List.Pairwise.sublist (List.take_sublist limit _)
      (sortByIdDesc_sorted L.donations)
  · intro v hv
    rcases List.mem_map.mp hv with ⟨d, hd, rfl⟩
    refine ⟨d, ?_, rfl⟩
    exact List.mem_mergeSort.mp ((List.take_sublist limit _).subset hd)
  · exact (hproj users').trans (hproj L.users).symm
  · intro v hv
    rcases List.mem_map.mp hv with ⟨d, hd, rfl⟩
    constructor
    · intro hnone
      rw [joinDonorNames_user_id] at hnone
      simp [joinDonorNames, hnone]
    · intro u hu
      rw [joinDonorNames_user_id] at hu
      simp [joinDonorNames, hu]

/-- Counterexample to claim C1 as stated: with the waiting flag set,
the texts `"-3"` and `"abc"` each produce a validation reply but the flag
is *still set* afterwards (the user does not return to `IDLE`). -/
theorem awaiting_flag_survives_invalid_input :
    (handle_message ⟨true⟩ 1 7 "-3").1.waiting_for_amount = true ∧
    (handle_message ⟨true⟩ 1 7 "abc").1.waiting_for_amount = true ∧
    (handle_message ⟨true⟩ 1 7 "-3").2
      = .reply "Amount must be at least 1 Star. Try again:" ∧
    (handle_message ⟨true⟩ 1 7 "abc").2
      = .reply "Please enter a valid number (e.g., 25). Try again:" := by
  refine ⟨rfl, rfl, rfl, rfl⟩

/-- Claim C1 as amended: for a user in `AWAITING_AMOUNT` (flag set),
processing one text message issues an invoice for the parsed amount and
clears the flag (back to `IDLE`) exactly when the stripped text parses as
an integer `≥ 1`; when the parse fails or the value is `< 1`, a validation
reply is sent and the flag *remains set* (the user stays in
`AWAITING_AMOUNT` and may retry in place). -/
theorem handle_message_awaiting_transitions (chat_id user_id : Int)
    (text : String) :
    (∀ a, parsePyInt (pyStrip text) = some a → ¬ a < 1 →
      handle_message ⟨true⟩ chat_id user_id text
        = (⟨false⟩, .invoice (send_invoice chat_id a user_id))) ∧
    (∀ a, parsePyInt (pyStrip text) = some a → a < 1 →
      handle_message ⟨true⟩ chat_id user_id text
        = (⟨true⟩, .reply "Amount must be at least 1 Star. Try again:")) ∧
    (parsePyInt (pyStrip text) = none →
      handle_message ⟨true⟩ chat_id user_id text
        = (⟨true⟩, .reply "Please enter a valid number (e.g., 25). Try again:")) := by
  refine ⟨?_, ?_, ?_⟩
  · intro a ha hlt
    simp [handle_message, ha, hlt]
  · intro a ha hlt
    simp [handle_message, ha, hlt]
  · intro hn
    simp [handle_message, hn]

/-- Counterexample to claim C2 as stated: with a well-formed decoded body,
a dispatch pipeline that raises makes the gateway handler's outcome the
escaped exception itself — the handler converts it into no HTTP response
at all (in particular into no server-error response). -/
theorem webhook_dispatch_error_escapes :
    (webhook (some (Json.num 1)) (fun _ => Except.error "boom")).1
      = HttpOutcome.raised "boom" ∧
    ((webhook (some (Json.num 1)) (fun _ => Except.error "boom")).1).isResponse
      = false := by
  refine ⟨rfl, rfl⟩

/-- Claim C2 as amended: the gateway handler wraps dispatch in no
`try/except`, so for every successfully decoded body, an exception raised
while dispatching propagates out of the gateway handler unconverted (it is
the surrounding HTTP framework, outside this handler, that must turn the
escaped exception into a server-error response). -/
theorem webhook_no_dispatch_catch (j : Json)
    (d : Json → Except String Unit) (e : String)
    (hj : j.truthy = true) (hd : d j = Except.error e) :
    webhook (some j) d = (HttpOutcome.raised e, true) := by
  simp [webhook, hj, hd]

/-- Witness for the amended C2 at a concrete input. -/
theorem webhook_no_dispatch_catch_witness :
    webhook (some (Json.num 2)) (fun _ => Except.error "db unavailable")
      = (HttpOutcome.raised "db unavailable", true) :=
  webhook_no_dispatch_catch (Json.num 2)
    (fun _ => Except.error "db unavailable") "db unavailable" rfl rfl

/-- Claim C7: a `/stats` or `/donations` request from any identity other
than the configured administrator yields the fixed denial reply and reads
no ledger data; in particular the non-admin response is identical for any
two ledger states (no data disclosure). -/
theorem admin_denial_no_read (adminId fromId : Int) (L L' : Ledger)
    (h : fromId ≠ adminId) :
    stats adminId fromId L = ("Admin only.", false) ∧
    donations adminId fromId L = ("Admin only.", false) ∧
    stats adminId fromId L = stats adminId fromId L' ∧
    donations adminId fromId L = donations adminId fromId L' := by
  have hb : (fromId != adminId) = true := by simpa using h
  simp [stats, donations, hb]

/-- Witness for C7: non-admin user 7 (admin identity 99) gets the same
denial on the empty ledger and on a ledger holding one donation. -/
theorem admin_denial_no_read_witness :
    stats 99 7 emptyLedger = ("Admin only.", false) ∧
    donations 99 7 emptyLedger = ("Admin only.", false) ∧
    stats 99 7 emptyLedger
      = stats 99 7 (successful_payment emptyLedger 1 500 "p" "t").1 ∧
    donations 99 7 emptyLedger
      = donations 99 7 (successful_payment emptyLedger 1 500 "p" "t").1 :=
  admin_denial_no_read 99 7 emptyLedger
    (successful_payment emptyLedger 1 500 "p" "t").1 (by decide)

/-- Claim C9: a webhook call whose body cannot be parsed as JSON (so
`request.get_json(force=True)` raises `BadRequest`), or whose decoded body
is falsy (`abort(400)`), yields the 400 client-error status and never
invokes the dispatch pipeline (`application.process_update` never runs). -/
theorem webhook_bad_body_rejected (d : Json → Except String Unit)
    (j : Json) :
    webhook none d = (HttpOutcome.response 400 ("Bad Request"), false) ∧
    (j.truthy = false →
      webhook (some j) d
        = (HttpOutcome.response 400 ("Bad Request"), false)) := by
  constructor
  · rfl
  · intro h
    simp [webhook, h]

end DonationBot
